import Mathlib

/-!
A shallow embedding of the animation core of `src/simpleTransitions.js`
(the `Animation` record, `AnimatableShape` with its `tween`, `stretchIn`,
`calculateEaseIn`, `calculateEaseOut` and `draw` methods), together with
theorems checking what the specification states about it.

JavaScript numbers are idealized as rationals extended with signed
infinities and a not-a-number value: rational arithmetic stands in for
exact IEEE arithmetic, while the special values keep the semantics of
division by zero (`t/0 = Infinity`, `0/0 = NaN`) and of comparisons with
`NaN`, which the easing functions rely on when `duration` is zero.

The wall clock (`millis()` in the source) is passed to each method as an
explicit `now` argument, and the Processing globals `width`/`height` read
by the `AnimatableShape` constructor are passed as `canvasW`/`canvasH`.
-/

/-- Idealized JavaScript number: a rational, a signed infinity, or NaN. -/
inductive JSNum where
  | num (q : ℚ)
  | posInf
  | negInf
  | nan
deriving DecidableEq, Repr

namespace JSNum

/-- JavaScript unary negation. -/
def neg : JSNum → JSNum
  | num q => num (-q)
  | posInf => negInf
  | negInf => posInf
  | nan => nan

/-- JavaScript addition (`Infinity + -Infinity = NaN`, NaN propagates). -/
def add : JSNum → JSNum → JSNum
  | nan, _ => nan
  | _, nan => nan
  | num a, num b => num (a + b)
  | posInf, negInf => nan
  | negInf, posInf => nan
  | posInf, _ => posInf
  | _, posInf => posInf
  | negInf, _ => negInf
  | _, negInf => negInf

/-- JavaScript subtraction, `a - b = a + (-b)`. -/
def sub (a b : JSNum) : JSNum := add a (neg b)

/-- JavaScript multiplication (`0 * Infinity = NaN`, NaN propagates). -/
def mul : JSNum → JSNum → JSNum
  | nan, _ => nan
  | _, nan => nan
  | num a, num b => num (a * b)
  | num a, posInf => if a = 0 then nan else if 0 < a then posInf else negInf
  | num a, negInf => if a = 0 then nan else if 0 < a then negInf else posInf
  | posInf, num b => if b = 0 then nan else if 0 < b then posInf else negInf
  | negInf, num b => if b = 0 then nan else if 0 < b then negInf else posInf
  | posInf, posInf => posInf
  | posInf, negInf => negInf
  | negInf, posInf => negInf
  | negInf, negInf => posInf

/-- JavaScript division: `a/0` is a signed infinity for `a ≠ 0`, `0/0` is
NaN, a finite number divided by an infinity is `0`, `Infinity/Infinity`
is NaN. The zero divisor is treated as `+0`. -/
def div : JSNum → JSNum → JSNum
  | nan, _ => nan
  | _, nan => nan
  | num a, num b =>
      if b = 0 then (if a = 0 then nan else if 0 < a then posInf else negInf)
      else num (a / b)
  | num _, posInf => num 0
  | num _, negInf => num 0
  | posInf, num b => if 0 ≤ b then posInf else negInf
  | negInf, num b => if 0 ≤ b then negInf else posInf
  | _, _ => nan

/-- JavaScript strict greater-than: any comparison with NaN is false. -/
def gt : JSNum → JSNum → Bool
  | nan, _ => false
  | _, nan => false
  | num a, num b => decide (b < a)
  | posInf, posInf => false
  | posInf, _ => true
  | _, posInf => false
  | negInf, _ => false
  | num _, negInf => true

/-- JavaScript strict less-than, `a < b` iff `b > a`. -/
def lt (a b : JSNum) : Bool := gt b a

/-- The rational value of a JSNum, with the special values sent to `0`
(an observation used only to state order-theoretic properties). -/
def val : JSNum → ℚ
  | num q => q
  | _ => 0

end JSNum

open JSNum

/-- The global `var MILLISECONDS_IN_SECOND = 1000;`. -/
def MILLISECONDS_IN_SECOND : JSNum := num 1000

/-- The `Animation` container: durations, start time, start/destination
pairs, the precomputed distances and the `isAnimating` flag. -/
structure Animation where
  animDuration : JSNum
  animDestinationX : JSNum
  animDestinationY : JSNum
  animStartX : JSNum
  animStartY : JSNum
  animStartTime : JSNum
  isAnimating : Bool
  animDistanceX : JSNum
  animDistanceY : JSNum
deriving DecidableEq, Repr

/-- Constructor `new Animation(duration, startTime, destinationX,
destinationY, startX, startY)`: stores the six scalars, sets `isAnimating = false`, and
precomputes `animDistanceX/Y = destination - start`. -/
def Animation.make (duration startTime destinationX destinationY startX startY : JSNum) :
    Animation where
  animDuration := duration
  animDestinationX := destinationX
  animDestinationY := destinationY
  animStartX := startX
  animStartY := startY
  animStartTime := startTime
  isAnimating := false
  animDistanceX := sub destinationX startX
  animDistanceY := sub destinationY startY

/-- The `AnimatableShape` state: current position and size and its three
animation slots. -/
structure AnimatableShape where
  x : JSNum
  y : JSNum
  width : JSNum
  height : JSNum
  animationTween : Animation
  animationStretch : Animation
  animationShrink : Animation
deriving DecidableEq, Repr

namespace AnimatableShape

/-- The `AnimatableShape(x, y, shapeWidth, shapeHeight)` constructor. The
stretch and shrink slots are initialized from the Processing globals
`width`/`height` (the canvas dimensions), exactly as in the source;
`now` stands for the `millis()` calls. -/
def make (x y shapeWidth shapeHeight canvasW canvasH now : JSNum) : AnimatableShape where
  x := x
  y := y
  width := shapeWidth
  height := shapeHeight
  animationTween := Animation.make (num 0) now x y x y
  animationStretch := Animation.make (num 0) now canvasW canvasH canvasW canvasH
  animationShrink := Animation.make (num 0) now canvasW canvasH canvasW canvasH

/-- Method `AnimatableShape.prototype.tween(finalX, finalY, duration)`:
replaces
the tween slot with a fresh running animation from the current `(x, y)`
to `(finalX, finalY)` started at `now`. -/
def tween (s : AnimatableShape) (finalX finalY duration now : JSNum) : AnimatableShape :=
  let a := Animation.make duration now finalX finalY s.x s.y
  { s with animationTween := { a with isAnimating := true } }

/-- Method `AnimatableShape.prototype.stretchIn(maxScale, duration)`:
clamps
`maxScale` below by `1`, splits `duration` into the stretch share
`(maxScale / (maxScale + maxScale - 1)) * duration` and the remainder
for the shrink, and installs a running stretch animation from `(0,0)` to
`(maxScale*width, maxScale*height)` plus a not-yet-running shrink
animation back to `(width, height)`. -/
def stretchIn (s : AnimatableShape) (maxScale duration now : JSNum) : AnimatableShape :=
  let maxScale := if lt maxScale (num 1) then num 1 else maxScale
  let totalScaleChange := sub (add maxScale maxScale) (num 1)
  let durationOfStretch := mul (div maxScale totalScaleChange) duration
  let stretch := Animation.make durationOfStretch now
      (mul maxScale s.width) (mul maxScale s.height) (num 0) (num 0)
  let shrink := Animation.make (sub duration durationOfStretch) now
      s.width s.height (mul maxScale s.width) (mul maxScale s.height)
  { s with
      animationStretch := { stretch with isAnimating := true }
      animationShrink := shrink }

end AnimatableShape

/-- Method `calculateEaseIn(time, duration, distance, position)`: the
completion
percentage `time/duration` is clamped above by `1` (only above: the
source tests `percentage > 1` alone), and the result is
`position + distance * percentage^2`. -/
def calculateEaseIn (time duration distance position : JSNum) : JSNum :=
  let percentage := div time duration
  let percentage := if gt percentage (num 1) then num 1 else percentage
  add position (mul distance (mul percentage percentage))

/-- Method `calculateEaseOut(time, duration, distance, position)`: the
completion
percentage `time/duration` is clamped above by `1`, and the result is
`position + (-1 * distance * percentage * (percentage - 2))`. -/
def calculateEaseOut (time duration distance position : JSNum) : JSNum :=
  let percentage := div time duration
  let percentage := if gt percentage (num 1) then num 1 else percentage
  add position (mul (mul (mul (num (-1)) distance) percentage) (sub percentage (num 2)))

namespace AnimatableShape

/-- First block of `draw`: if the tween slot is running, set `y` then `x`
by ease-out from the tween record, and clear the flag once
`timePassed > duration`. -/
def drawTween (s : AnimatableShape) (now : JSNum) : AnimatableShape :=
  if s.animationTween.isAnimating then
    let timePassed := sub (div now MILLISECONDS_IN_SECOND)
        (div s.animationTween.animStartTime MILLISECONDS_IN_SECOND)
    let s1 := { s with
        y := calculateEaseOut timePassed s.animationTween.animDuration
            s.animationTween.animDistanceY s.animationTween.animStartY
        x := calculateEaseOut timePassed s.animationTween.animDuration
            s.animationTween.animDistanceX s.animationTween.animStartX }
    if gt timePassed s1.animationTween.animDuration then
      { s1 with animationTween := { s1.animationTween with isAnimating := false } }
    else s1
  else s

/-- Second block of `draw`: if the stretch slot is running, set `width`
and `height` by ease-out — the source passes `animDistanceY/animStartY`
to the `width` computation and `animDistanceX/animStartX` to the
`height` computation — and on `timePassed > duration` clear the stretch
flag while re-stamping and starting the shrink slot. -/
def drawStretch (s : AnimatableShape) (now : JSNum) : AnimatableShape :=
  if s.animationStretch.isAnimating then
    let timePassed := sub (div now MILLISECONDS_IN_SECOND)
        (div s.animationStretch.animStartTime MILLISECONDS_IN_SECOND)
    let s1 := { s with
        width := calculateEaseOut timePassed s.animationStretch.animDuration
            s.animationStretch.animDistanceY s.animationStretch.animStartY
        height := calculateEaseOut timePassed s.animationStretch.animDuration
            s.animationStretch.animDistanceX s.animationStretch.animStartX }
    if gt timePassed s1.animationStretch.animDuration then
      { s1 with
          animationStretch := { s1.animationStretch with isAnimating := false }
          animationShrink := { s1.animationShrink with
              animStartTime := now
              isAnimating := true } }
    else s1
  else s

/-- Third block of `draw`: if the shrink slot is running, set `width` and
`height` by ease-in (again with the X/Y fields crossed as in the
source), and clear the flag once `timePassed > duration`. -/
def drawShrink (s : AnimatableShape) (now : JSNum) : AnimatableShape :=
  if s.animationShrink.isAnimating then
    let timePassed := sub (div now MILLISECONDS_IN_SECOND)
        (div s.animationShrink.animStartTime MILLISECONDS_IN_SECOND)
    let s1 := { s with
        width := calculateEaseIn timePassed s.animationShrink.animDuration
            s.animationShrink.animDistanceY s.animationShrink.animStartY
        height := calculateEaseIn timePassed s.animationShrink.animDuration
            s.animationShrink.animDistanceX s.animationShrink.animStartX }
    if gt timePassed s1.animationShrink.animDuration then
      { s1 with animationShrink := { s1.animationShrink with isAnimating := false } }
    else s1
  else s

/-- Method `AnimatableShape.prototype.draw()`: the three blocks run in order
(tween, stretch, shrink) within one call, reading the same clock. -/
def draw (s : AnimatableShape) (now : JSNum) : AnimatableShape :=
  drawShrink (drawStretch (drawTween s now) now) now

end AnimatableShape

/-- One externally triggered call on an `AnimatableShape`: a tween
trigger, a growth trigger, or a per-frame update, each at a clock value
`now` (in milliseconds). -/
inductive Op where
  | tween (finalX finalY duration now : JSNum)
  | stretchIn (maxScale duration now : JSNum)
  | draw (now : JSNum)
deriving DecidableEq, Repr

/-- Apply one call to a shape. -/
def runOp (s : AnimatableShape) : Op → AnimatableShape
  | .tween fx fy d now => s.tween fx fy d now
  | .stretchIn m d now => s.stretchIn m d now
  | .draw now => s.draw now

/-- Apply a sequence of calls from left to right. -/
def run (s : AnimatableShape) : List Op → AnimatableShape
  | [] => s
  | op :: ops => run (runOp s op) ops

/-! Arithmetic bridge lemmas for finite values. -/

namespace JSNum

@[simp] theorem add_num (a b : ℚ) : add (num a) (num b) = num (a + b) := rfl

@[simp] theorem neg_num (a : ℚ) : neg (num a) = num (-a) := rfl

@[simp] theorem sub_num (a b : ℚ) : sub (num a) (num b) = num (a - b) := by
  simp [sub, add, neg, sub_eq_add_neg]

@[simp] theorem mul_num (a b : ℚ) : mul (num a) (num b) = num (a * b) := rfl

theorem div_num (a b : ℚ) (hb : b ≠ 0) : div (num a) (num b) = num (a / b) := by
  simp [div, hb]

@[simp] theorem gt_num (a b : ℚ) : gt (num a) (num b) = decide (b < a) := rfl

@[simp] theorem val_num (a : ℚ) : val (num a) = a := rfl

end JSNum

/-- The clamp the easing functions apply to the completion percentage:
values above `1` are replaced by `1`, everything else is untouched. -/
def clamp1 (p : ℚ) : ℚ := if 1 < p then 1 else p

theorem calculateEaseOut_num (t d dist pos : ℚ) (hd : d ≠ 0) :
    calculateEaseOut (num t) (num d) (num dist) (num pos)
      = num (pos + -1 * dist * clamp1 (t / d) * (clamp1 (t / d) - 2)) := by
  unfold calculateEaseOut clamp1
  rw [div_num t d hd]
  by_cases h : 1 < t / d
  · simp [h]
  · simp [h]

theorem calculateEaseIn_num (t d dist pos : ℚ) (hd : d ≠ 0) :
    calculateEaseIn (num t) (num d) (num dist) (num pos)
      = num (pos + dist * (clamp1 (t / d) * clamp1 (t / d))) := by
  unfold calculateEaseIn clamp1
  rw [div_num t d hd]
  by_cases h : 1 < t / d
  · simp [h]
  · simp [h]

/-- When the elapsed time strictly exceeds a nonnegative duration, the
ease-out percentage clamps to `1` (through `+Infinity` when the duration
is zero) and the result is exactly `position + distance`. -/
theorem calculateEaseOut_done (t d dist pos : ℚ) (hd : 0 ≤ d) (ht : d < t) :
    calculateEaseOut (num t) (num d) (num dist) (num pos) = num (pos + dist) := by
  rcases eq_or_lt_of_le hd with h0 | h0
  · have htpos : 0 < t := lt_of_le_of_lt hd ht
    unfold calculateEaseOut
    rw [← h0]
    simp [JSNum.div, htpos.ne.symm, htpos, JSNum.gt]
    ring_nf
  · have h1 : 1 < t / d := (one_lt_div h0).mpr ht
    rw [calculateEaseOut_num t d dist pos h0.ne.symm]
    unfold clamp1
    rw [if_pos h1]
    ring_nf

/-- The ease-in analogue of `calculateEaseOut_done`. -/
theorem calculateEaseIn_done (t d dist pos : ℚ) (hd : 0 ≤ d) (ht : d < t) :
    calculateEaseIn (num t) (num d) (num dist) (num pos) = num (pos + dist) := by
  rcases eq_or_lt_of_le hd with h0 | h0
  · have htpos : 0 < t := lt_of_le_of_lt hd ht
    unfold calculateEaseIn
    rw [← h0]
    simp [JSNum.div, htpos.ne.symm, htpos, JSNum.gt]
  · have h1 : 1 < t / d := (one_lt_div h0).mpr ht
    rw [calculateEaseIn_num t d dist pos h0.ne.symm]
    unfold clamp1
    rw [if_pos h1]
    ring_nf

/-! Frame lemmas for the three blocks of `draw`. -/

namespace AnimatableShape

theorem drawTween_animationStretch (s : AnimatableShape) (now : JSNum) :
    (drawTween s now).animationStretch = s.animationStretch := by
  unfold drawTween
  split
  · dsimp only
    split <;> rfl
  · rfl

theorem drawTween_animationShrink (s : AnimatableShape) (now : JSNum) :
    (drawTween s now).animationShrink = s.animationShrink := by
  unfold drawTween
  split
  · dsimp only
    split <;> rfl
  · rfl

theorem drawStretch_x (s : AnimatableShape) (now : JSNum) :
    (drawStretch s now).x = s.x := by
  unfold drawStretch
  split
  · dsimp only
    split <;> rfl
  · rfl

theorem drawStretch_y (s : AnimatableShape) (now : JSNum) :
    (drawStretch s now).y = s.y := by
  unfold drawStretch
  split
  · dsimp only
    split <;> rfl
  · rfl

theorem drawStretch_animationTween (s : AnimatableShape) (now : JSNum) :
    (drawStretch s now).animationTween = s.animationTween := by
  unfold drawStretch
  split
  · dsimp only
    split <;> rfl
  · rfl

theorem drawShrink_x (s : AnimatableShape) (now : JSNum) :
    (drawShrink s now).x = s.x := by
  unfold drawShrink
  split
  · dsimp only
    split <;> rfl
  · rfl

theorem drawShrink_y (s : AnimatableShape) (now : JSNum) :
    (drawShrink s now).y = s.y := by
  unfold drawShrink
  split
  · dsimp only
    split <;> rfl
  · rfl

theorem drawShrink_animationTween (s : AnimatableShape) (now : JSNum) :
    (drawShrink s now).animationTween = s.animationTween := by
  unfold drawShrink
  split
  · dsimp only
    split <;> rfl
  · rfl

theorem drawShrink_animationStretch (s : AnimatableShape) (now : JSNum) :
    (drawShrink s now).animationStretch = s.animationStretch := by
  unfold drawShrink
  split
  · dsimp only
    split <;> rfl
  · rfl

end AnimatableShape

/-! The running-flag invariant of the stretch and shrink pair. -/

/-- The stretch and shrink slots are never simultaneously running. -/
def FlagsOk (s : AnimatableShape) : Prop :=
  s.animationStretch.isAnimating = false ∨ s.animationShrink.isAnimating = false

namespace AnimatableShape

theorem flagsOk_make (x y w h cw ch now : JSNum) :
    FlagsOk (make x y w h cw ch now) := Or.inl rfl

theorem flagsOk_tween (s : AnimatableShape) (fx fy d now : JSNum) (h : FlagsOk s) :
    FlagsOk (s.tween fx fy d now) := h

theorem flagsOk_stretchIn (s : AnimatableShape) (m d now : JSNum) :
    FlagsOk (s.stretchIn m d now) := Or.inr rfl

theorem flagsOk_drawTween (s : AnimatableShape) (now : JSNum) (h : FlagsOk s) :
    FlagsOk (drawTween s now) := by
  unfold FlagsOk
  rw [drawTween_animationStretch, drawTween_animationShrink]
  exact h

theorem flagsOk_drawStretch (s : AnimatableShape) (now : JSNum) (h : FlagsOk s) :
    FlagsOk (drawStretch s now) := by
  unfold drawStretch
  split
  · rename_i hrun
    dsimp only
    split
    · exact Or.inl rfl
    · rcases h with h | h
      · rw [h] at hrun
        cases hrun
      · exact Or.inr h
  · exact h

theorem flagsOk_drawShrink (s : AnimatableShape) (now : JSNum) (h : FlagsOk s) :
    FlagsOk (drawShrink s now) := by
  unfold drawShrink
  split
  · rename_i hrun
    dsimp only
    rcases h with h | h
    · split
      · exact Or.inl h
      · exact Or.inl h
    · rw [h] at hrun
      cases hrun
  · exact h

theorem flagsOk_draw (s : AnimatableShape) (now : JSNum) (h : FlagsOk s) :
    FlagsOk (draw s now) :=
  flagsOk_drawShrink _ _ (flagsOk_drawStretch _ _ (flagsOk_drawTween _ _ h))

end AnimatableShape

theorem flagsOk_runOp (s : AnimatableShape) (op : Op) (h : FlagsOk s) :
    FlagsOk (runOp s op) := by
  cases op with
  | tween fx fy d now => exact s.flagsOk_tween fx fy d now h
  | stretchIn m d now => exact s.flagsOk_stretchIn m d now
  | draw now => exact s.flagsOk_draw now h

theorem flagsOk_run (ops : List Op) (s : AnimatableShape) (h : FlagsOk s) :
    FlagsOk (run s ops) := by
  induction ops generalizing s with
  | nil => exact h
  | cons op ops ih => exact ih (runOp s op) (flagsOk_runOp s op h)

/-! Characterizations of `stretchIn` and the `draw` hand-off. -/

theorem stretchIn_stretch_duration (s : AnimatableShape) (m d now : ℚ) :
    (s.stretchIn (num m) (num d) (num now)).animationStretch.animDuration
      = num ((if m < 1 then 1 else m) / (2 * (if m < 1 then 1 else m) - 1) * d) := by
  unfold AnimatableShape.stretchIn
  by_cases hm : m < 1
  · have hlt : lt (num m) (num 1) = true := by
      simp [lt, hm]
    simp only [hlt, if_true, if_pos hm]
    dsimp only [Animation.make]
    have h1 : sub (add (num 1) (num 1)) (num 1) = num 1 := by norm_num
    rw [h1, div_num 1 1 one_ne_zero, mul_num, JSNum.num.injEq]
    norm_num
  · have hlt : lt (num m) (num 1) = false := by
      simp [lt, hm]
    simp only [hlt, Bool.false_eq_true, if_false, if_neg hm]
    dsimp only [Animation.make]
    push_neg at hm
    have h2 : sub (add (num m) (num m)) (num 1) = num (2 * m - 1) := by
      rw [show add (num m) (num m) = num (m + m) from rfl]
      rw [show sub (num (m + m)) (num 1) = num (m + m - 1) by simp]
      ring_nf
    rw [h2, div_num m (2 * m - 1) (by nlinarith), mul_num]

theorem stretchIn_shrink_duration (s : AnimatableShape) (m d now : ℚ) :
    (s.stretchIn (num m) (num d) (num now)).animationShrink.animDuration
      = num (d - (if m < 1 then 1 else m) / (2 * (if m < 1 then 1 else m) - 1) * d) := by
  unfold AnimatableShape.stretchIn
  by_cases hm : m < 1
  · have hlt : lt (num m) (num 1) = true := by
      simp [lt, hm]
    simp only [hlt, if_true, if_pos hm]
    dsimp only [Animation.make]
    have h1 : sub (add (num 1) (num 1)) (num 1) = num 1 := by norm_num
    rw [h1, div_num 1 1 one_ne_zero, mul_num, sub_num, JSNum.num.injEq]
    norm_num
  · have hlt : lt (num m) (num 1) = false := by
      simp [lt, hm]
    simp only [hlt, Bool.false_eq_true, if_false, if_neg hm]
    dsimp only [Animation.make]
    push_neg at hm
    have h2 : sub (add (num m) (num m)) (num 1) = num (2 * m - 1) := by
      rw [show add (num m) (num m) = num (m + m) from rfl]
      rw [show sub (num (m + m)) (num 1) = num (m + m - 1) by simp]
      ring_nf
    rw [h2, div_num m (2 * m - 1) (by nlinarith), mul_num, sub_num]

namespace AnimatableShape

theorem drawStretch_handoff (s : AnimatableShape) (now : JSNum)
    (hrun : s.animationStretch.isAnimating = true)
    (helapsed : gt (sub (div now MILLISECONDS_IN_SECOND)
        (div s.animationStretch.animStartTime MILLISECONDS_IN_SECOND))
        s.animationStretch.animDuration = true) :
    (drawStretch s now).animationStretch.isAnimating = false ∧
    (drawStretch s now).animationShrink.animStartTime = now ∧
    (drawStretch s now).animationShrink.isAnimating = true ∧
    (drawStretch s now).animationShrink.animDuration = s.animationShrink.animDuration := by
  unfold drawStretch
  simp only [hrun, if_true]
  simp only [helapsed, if_true]
  simp

theorem drawShrink_startTime (s : AnimatableShape) (now : JSNum) :
    (drawShrink s now).animationShrink.animStartTime = s.animationShrink.animStartTime := by
  unfold drawShrink
  split
  · dsimp only
    split <;> rfl
  · rfl

theorem drawShrink_no_finish (s : AnimatableShape) (now : JSNum)
    (hrun : s.animationShrink.isAnimating = true)
    (hnot : gt (sub (div now MILLISECONDS_IN_SECOND)
        (div s.animationShrink.animStartTime MILLISECONDS_IN_SECOND))
        s.animationShrink.animDuration = false) :
    (drawShrink s now).animationShrink.isAnimating = true := by
  unfold drawShrink
  simp only [hrun, if_true]
  simp only [hnot, Bool.false_eq_true, if_false]
  exact hrun

end AnimatableShape

/-! Claim theorems. -/

/-- Claim C1: the claim says a stretch update at clamped percentage `1`
yields `width = maxScale*width` and `height = maxScale*height`. The code
instead passes `animDistanceY/animStartY` to the `width` computation and
`animDistanceX/animStartX` to the `height` computation, so for a shape
of width 10 and height 20 with `stretchIn(2, 3)` the update at elapsed
2 s (clamped percentage exactly 1) leaves `width = 40 = 2*height` and
`height = 20 = 2*width`, the opposite of the claim. -/
theorem stretchIn_draw_axes_swapped :
    (((AnimatableShape.make (num 0) (num 0) (num 10) (num 20) (num 400) (num 400)
        (num 0)).stretchIn (num 2) (num 3) (num 0)).draw (num 2000)).width = num 40
    ∧ (((AnimatableShape.make (num 0) (num 0) (num 10) (num 20) (num 400) (num 400)
        (num 0)).stretchIn (num 2) (num 3) (num 0)).draw (num 2000)).height = num 20
    ∧ num 40 ≠ (num (2 * 10) : JSNum)
    ∧ num 20 ≠ (num (2 * 20) : JSNum) := by
  norm_num [AnimatableShape.draw, AnimatableShape.drawTween, AnimatableShape.drawStretch,
    AnimatableShape.drawShrink, AnimatableShape.stretchIn, AnimatableShape.tween,
    AnimatableShape.make, Animation.make, calculateEaseOut, calculateEaseIn, JSNum.div,
    JSNum.gt, JSNum.lt, JSNum.mul, JSNum.add, JSNum.sub, JSNum.neg, MILLISECONDS_IN_SECOND]

/-- Claim C2: `stretchIn(maxScale, duration)` first replaces `maxScale` by
`1` when it is below `1`; the stretch animation then has duration
`(maxScale / (2*maxScale - 1)) * duration` and the shrink animation the
remainder; in particular `stretchIn(1.5, 1.0)` gives stretch duration
`0.75` and shrink duration `0.25`. -/
theorem stretchIn_duration_split (s : AnimatableShape) (m d now : ℚ) :
    ((s.stretchIn (num m) (num d) (num now)).animationStretch.animDuration
        = num ((if m < 1 then 1 else m) / (2 * (if m < 1 then 1 else m) - 1) * d)
      ∧ (s.stretchIn (num m) (num d) (num now)).animationShrink.animDuration
        = num (d - (if m < 1 then 1 else m) / (2 * (if m < 1 then 1 else m) - 1) * d))
    ∧ ((s.stretchIn (num (3/2)) (num 1) (num 0)).animationStretch.animDuration = num (3/4)
      ∧ (s.stretchIn (num (3/2)) (num 1) (num 0)).animationShrink.animDuration = num (1/4)) := by
  refine ⟨⟨stretchIn_stretch_duration s m d now, stretchIn_shrink_duration s m d now⟩, ?_, ?_⟩
  · rw [stretchIn_stretch_duration s (3/2) 1 0]
    have h : ¬((3:ℚ)/2 < 1) := by norm_num
    rw [if_neg h, JSNum.num.injEq]
    norm_num
  · rw [stretchIn_shrink_duration s (3/2) 1 0]
    have h : ¬((3:ℚ)/2 < 1) := by norm_num
    rw [if_neg h, JSNum.num.injEq]
    norm_num

/-- Claim C4: `tween(finalX, finalY, duration)` replaces the tween slot by
a new running `Animation` started at the clock value whose start pair is
the current `(x, y)` of the shape and whose destination is
`(finalX, finalY)` — for every shape state, hence also mid-flight. -/
theorem tween_replaces_slot (s : AnimatableShape) (finalX finalY duration now : JSNum) :
    (s.tween finalX finalY duration now).animationTween
      = { Animation.make duration now finalX finalY s.x s.y with isAnimating := true } := rfl

/-- Claim C10: in every state reachable from a freshly constructed
`AnimatableShape` by any sequence of `tween`, `stretchIn` and `draw`
calls, the stretch and shrink running flags are never both set. -/
theorem stretch_shrink_never_both_running (x y w h cw ch n0 : JSNum) (ops : List Op) :
    (run (AnimatableShape.make x y w h cw ch n0) ops).animationStretch.isAnimating = false
    ∨ (run (AnimatableShape.make x y w h cw ch n0) ops).animationShrink.isAnimating = false :=
  flagsOk_run ops _ (AnimatableShape.flagsOk_make x y w h cw ch n0)

/-- Claim C5 counterexample: for a tween with duration `-1`, an update at
elapsed time `1` (which strictly exceeds the duration) clears the
running flag but sets `x = -200`, not the destination `200`: the
percentage `1/(-1) = -1` is not above `1`, so it is not clamped. -/
theorem tween_negative_duration_counterexample :
    gt (sub (div (num 1000) MILLISECONDS_IN_SECOND) (div (num 0) MILLISECONDS_IN_SECOND))
        (num (-1)) = true
    ∧ (((AnimatableShape.make (num 100) (num 100) (num 20) (num 20) (num 400) (num 400)
        (num 0)).tween (num 200) (num 300) (num (-1))
        (num 0)).draw (num 1000)).animationTween.isAnimating = false
    ∧ (((AnimatableShape.make (num 100) (num 100) (num 20) (num 20) (num 400) (num 400)
        (num 0)).tween (num 200) (num 300) (num (-1))
        (num 0)).draw (num 1000)).x = num (-200)
    ∧ num (-200) ≠ (num 200 : JSNum) := by
  norm_num [AnimatableShape.draw, AnimatableShape.drawTween, AnimatableShape.drawStretch,
    AnimatableShape.drawShrink, AnimatableShape.stretchIn, AnimatableShape.tween,
    AnimatableShape.make, Animation.make, calculateEaseOut, calculateEaseIn, JSNum.div,
    JSNum.gt, JSNum.lt, JSNum.mul, JSNum.add, JSNum.sub, JSNum.neg, MILLISECONDS_IN_SECOND]

/-- Claim C6 counterexample: with negative duration `-1`, elapsed time `1`
and distance `1` from start `0`, ease-out returns `-3`, not
`start + distance = 1`: the percentage `-1` is below `1` and is not
clamped, so the destination is not reached. -/
theorem negative_duration_not_clamped :
    calculateEaseOut (num 1) (num (-1)) (num 1) (num 0) = num (-3)
    ∧ ((num (-3) : JSNum) ≠ num (0 + 1)) := by
  norm_num [AnimatableShape.draw, AnimatableShape.drawTween, AnimatableShape.drawStretch,
    AnimatableShape.drawShrink, AnimatableShape.stretchIn, AnimatableShape.tween,
    AnimatableShape.make, Animation.make, calculateEaseOut, calculateEaseIn, JSNum.div,
    JSNum.gt, JSNum.lt, JSNum.mul, JSNum.add, JSNum.sub, JSNum.neg, MILLISECONDS_IN_SECOND]

/-- Claim C3: in an update where the stretch animation is running and its
elapsed time exceeds its duration, that same update clears the stretch
flag, re-stamps the shrink start time to the current clock value and
leaves the shrink animation running at the end of the call (the shrink
duration being nonnegative, as `stretchIn` produces for nonnegative
total durations). -/
theorem stretch_to_shrink_handoff (s : AnimatableShape) (now sd : ℚ)
    (hrun : s.animationStretch.isAnimating = true)
    (helapsed : gt (sub (div (num now) MILLISECONDS_IN_SECOND)
        (div s.animationStretch.animStartTime MILLISECONDS_IN_SECOND))
        s.animationStretch.animDuration = true)
    (hsd : s.animationShrink.animDuration = num sd)
    (hsdnn : 0 ≤ sd) :
    (s.draw (num now)).animationStretch.isAnimating = false
    ∧ (s.draw (num now)).animationShrink.animStartTime = num now
    ∧ (s.draw (num now)).animationShrink.isAnimating = true := by
  unfold AnimatableShape.draw
  set t := AnimatableShape.drawTween s (num now) with ht
  have hts : t.animationStretch = s.animationStretch :=
    AnimatableShape.drawTween_animationStretch s (num now)
  have thr : t.animationShrink = s.animationShrink :=
    AnimatableShape.drawTween_animationShrink s (num now)
  have h1 : t.animationStretch.isAnimating = true := by rw [hts]; exact hrun
  have h2 : gt (sub (div (num now) MILLISECONDS_IN_SECOND)
      (div t.animationStretch.animStartTime MILLISECONDS_IN_SECOND))
      t.animationStretch.animDuration = true := by rw [hts]; exact helapsed
  obtain ⟨ha, hb, hc, hd2⟩ := AnimatableShape.drawStretch_handoff t (num now) h1 h2
  set u := AnimatableShape.drawStretch t (num now) with hu
  have hnot : gt (sub (div (num now) MILLISECONDS_IN_SECOND)
      (div u.animationShrink.animStartTime MILLISECONDS_IN_SECOND))
      u.animationShrink.animDuration = false := by
    rw [hb, hd2, thr, hsd]
    rw [show div (num now) MILLISECONDS_IN_SECOND = num (now / 1000) from
      div_num now 1000 (by norm_num)]
    rw [sub_num, gt_num]
    simp only [decide_eq_false_iff_not, not_lt]
    linarith
  refine ⟨?_, ?_, ?_⟩
  · rw [AnimatableShape.drawShrink_animationStretch]; exact ha
  · rw [AnimatableShape.drawShrink_startTime]; exact hb
  · exact AnimatableShape.drawShrink_no_finish u (num now) hc hnot

/-- Claim C3 witness: a 10 by 20 shape given `stretchIn(2, 3)` at time 0
has stretch duration 2 s and shrink duration 1 s; the update at 2500 ms
performs the hand-off. -/
theorem stretch_to_shrink_handoff_witness :
    ((AnimatableShape.make (num 0) (num 0) (num 10) (num 20) (num 400) (num 400)
        (num 0)).stretchIn (num 2) (num 3) (num 0)).animationStretch.isAnimating = true
    ∧ gt (sub (div (num 2500) MILLISECONDS_IN_SECOND)
        (div ((AnimatableShape.make (num 0) (num 0) (num 10) (num 20) (num 400) (num 400)
          (num 0)).stretchIn (num 2) (num 3)
          (num 0)).animationStretch.animStartTime MILLISECONDS_IN_SECOND))
        ((AnimatableShape.make (num 0) (num 0) (num 10) (num 20) (num 400) (num 400)
          (num 0)).stretchIn (num 2) (num 3) (num 0)).animationStretch.animDuration = true
    ∧ ((AnimatableShape.make (num 0) (num 0) (num 10) (num 20) (num 400) (num 400)
        (num 0)).stretchIn (num 2) (num 3) (num 0)).animationShrink.animDuration = num 1
    ∧ (0:ℚ) ≤ 1
    ∧ ((((AnimatableShape.make (num 0) (num 0) (num 10) (num 20) (num 400) (num 400)
        (num 0)).stretchIn (num 2) (num 3)
        (num 0)).draw (num 2500)).animationStretch.isAnimating = false
      ∧ (((AnimatableShape.make (num 0) (num 0) (num 10) (num 20) (num 400) (num 400)
        (num 0)).stretchIn (num 2) (num 3)
        (num 0)).draw (num 2500)).animationShrink.animStartTime = num 2500
      ∧ (((AnimatableShape.make (num 0) (num 0) (num 10) (num 20) (num 400) (num 400)
        (num 0)).stretchIn (num 2) (num 3)
        (num 0)).draw (num 2500)).animationShrink.isAnimating = true) := by
  have he : gt (sub (div (num 2500) MILLISECONDS_IN_SECOND)
      (div ((AnimatableShape.make (num 0) (num 0) (num 10) (num 20) (num 400) (num 400)
        (num 0)).stretchIn (num 2) (num 3)
        (num 0)).animationStretch.animStartTime MILLISECONDS_IN_SECOND))
      ((AnimatableShape.make (num 0) (num 0) (num 10) (num 20) (num 400) (num 400)
        (num 0)).stretchIn (num 2) (num 3) (num 0)).animationStretch.animDuration = true := by
    norm_num [AnimatableShape.stretchIn, AnimatableShape.make, Animation.make, JSNum.div,
      JSNum.gt, JSNum.lt, JSNum.mul, JSNum.add, JSNum.sub, JSNum.neg, MILLISECONDS_IN_SECOND]
  have hd : ((AnimatableShape.make (num 0) (num 0) (num 10) (num 20) (num 400) (num 400)
      (num 0)).stretchIn (num 2) (num 3) (num 0)).animationShrink.animDuration = num 1 := by
    norm_num [AnimatableShape.stretchIn, AnimatableShape.make, Animation.make, JSNum.div,
      JSNum.gt, JSNum.lt, JSNum.mul, JSNum.add, JSNum.sub, JSNum.neg, MILLISECONDS_IN_SECOND]
  have happ := stretch_to_shrink_handoff
    ((AnimatableShape.make (num 0) (num 0) (num 10) (num 20) (num 400) (num 400)
      (num 0)).stretchIn (num 2) (num 3) (num 0)) 2500 1 rfl he hd (by norm_num)
  exact ⟨rfl, he, hd, by norm_num, happ⟩

/-- When the tween slot holds a running animation with finite parameters,
nonnegative duration, and elapsed seconds strictly beyond the duration,
the tween block of `draw` lands exactly on the destination and clears
the flag. -/
theorem drawTween_complete (s : AnimatableShape) (fx fy d t0 sx sy now : ℚ)
    (hslot : s.animationTween
      = { Animation.make (num d) (num t0) (num fx) (num fy) (num sx) (num sy) with
          isAnimating := true })
    (hd : 0 ≤ d) (ht : d < now / 1000 - t0 / 1000) :
    (AnimatableShape.drawTween s (num now)).x = num fx
    ∧ (AnimatableShape.drawTween s (num now)).y = num fy
    ∧ (AnimatableShape.drawTween s (num now)).animationTween.isAnimating = false := by
  have hdiv1 : div (num now) MILLISECONDS_IN_SECOND = num (now / 1000) :=
    div_num now 1000 (by norm_num)
  have hdiv2 : div (num t0) MILLISECONDS_IN_SECOND = num (t0 / 1000) :=
    div_num t0 1000 (by norm_num)
  have hgt : gt (num (now / 1000 - t0 / 1000)) (num d) = true := by
    rw [gt_num]
    exact decide_eq_true ht
  unfold AnimatableShape.drawTween
  rw [hslot]
  simp only [Animation.make, hdiv1, hdiv2, sub_num, hgt, if_true]
  refine ⟨?_, ?_, trivial⟩
  · rw [calculateEaseOut_done _ d _ _ hd ht, JSNum.num.injEq]
    ring
  · rw [calculateEaseOut_done _ d _ _ hd ht, JSNum.num.injEq]
    ring

/-- Claim C5 (amended): for every shape whose tween slot is a running tween
with nonnegative duration, an update whose elapsed time strictly exceeds
the duration sets `(x, y)` exactly to the destination (clamped
percentage 1) and clears the running flag. The original claim also
covered negative durations, which `tween_negative_duration_counterexample`
refutes. Instantiated at the spec scenario by the witness: shape at
`(100,100)`, `tween(200,300,1.0)`, update at elapsed 1.1 s. -/
theorem tween_completion_clamped (s : AnimatableShape) (fx fy d t0 sx sy now : ℚ)
    (hslot : s.animationTween
      = { Animation.make (num d) (num t0) (num fx) (num fy) (num sx) (num sy) with
          isAnimating := true })
    (hd : 0 ≤ d) (ht : d < now / 1000 - t0 / 1000) :
    (s.draw (num now)).x = num fx
    ∧ (s.draw (num now)).y = num fy
    ∧ (s.draw (num now)).animationTween.isAnimating = false := by
  obtain ⟨hx, hy, hf⟩ := drawTween_complete s fx fy d t0 sx sy now hslot hd ht
  unfold AnimatableShape.draw
  refine ⟨?_, ?_, ?_⟩
  · rw [AnimatableShape.drawShrink_x, AnimatableShape.drawStretch_x]; exact hx
  · rw [AnimatableShape.drawShrink_y, AnimatableShape.drawStretch_y]; exact hy
  · rw [AnimatableShape.drawShrink_animationTween,
        AnimatableShape.drawStretch_animationTween]; exact hf

/-- Claim C5 witness: the spec end-to-end scenario, a shape at `(100,100)`
with `tween(200,300,1.0)` updated at elapsed 1.1 s, lands exactly on
`(200,300)` with the flag cleared. -/
theorem tween_completion_clamped_witness :
    (0:ℚ) ≤ 1
    ∧ (1:ℚ) < 1100 / 1000 - 0 / 1000
    ∧ ((((AnimatableShape.make (num 100) (num 100) (num 20) (num 20) (num 400) (num 400)
        (num 0)).tween (num 200) (num 300) (num 1) (num 0)).draw (num 1100)).x = num 200
      ∧ (((AnimatableShape.make (num 100) (num 100) (num 20) (num 20) (num 400) (num 400)
        (num 0)).tween (num 200) (num 300) (num 1) (num 0)).draw (num 1100)).y = num 300
      ∧ (((AnimatableShape.make (num 100) (num 100) (num 20) (num 20) (num 400) (num 400)
        (num 0)).tween (num 200) (num 300) (num 1)
        (num 0)).draw (num 1100)).animationTween.isAnimating = false) :=
  ⟨by norm_num, by norm_num,
    tween_completion_clamped
      ((AnimatableShape.make (num 100) (num 100) (num 20) (num 20) (num 400) (num 400)
        (num 0)).tween (num 200) (num 300) (num 1) (num 0))
      200 300 1 0 100 100 1100 rfl (by norm_num) (by norm_num)⟩

/-- Claim C6 (amended): with duration `0` and elapsed time `t > 0` the
percentage (`+Infinity`) is treated as above `1` and clamps to `1`, so
both easings return `start + distance`, with no error; with `t = 0` and
duration `0` the result is NaN; with negative duration the percentage
`t/duration` is not clamped and the quadratic is applied to it as is
(total, but not `start + distance` in general, see
`negative_duration_not_clamped`). -/
theorem zero_duration_instant_completion (t dist pos d : ℚ) (ht : 0 < t) (hd : d < 0) :
    (calculateEaseOut (num t) (num 0) (num dist) (num pos) = num (pos + dist)
      ∧ calculateEaseIn (num t) (num 0) (num dist) (num pos) = num (pos + dist))
    ∧ (calculateEaseOut (num 0) (num 0) (num dist) (num pos) = nan
      ∧ calculateEaseIn (num 0) (num 0) (num dist) (num pos) = nan)
    ∧ (calculateEaseOut (num t) (num d) (num dist) (num pos)
        = num (pos + -1 * dist * clamp1 (t / d) * (clamp1 (t / d) - 2))
      ∧ calculateEaseIn (num t) (num d) (num dist) (num pos)
        = num (pos + dist * (clamp1 (t / d) * clamp1 (t / d)))
      ∧ clamp1 (t / d) = t / d) := by
  have hne : d ≠ 0 := ne_of_lt hd
  have h1 : ¬(1 < t / d) := by
    have := div_neg_of_pos_of_neg ht hd
    linarith
  have hcl : clamp1 (t / d) = t / d := by unfold clamp1; rw [if_neg h1]
  refine ⟨⟨calculateEaseOut_done t 0 dist pos le_rfl ht,
           calculateEaseIn_done t 0 dist pos le_rfl ht⟩, ⟨?_, ?_⟩,
          calculateEaseOut_num t d dist pos hne,
          calculateEaseIn_num t d dist pos hne, hcl⟩
  · norm_num [calculateEaseOut, JSNum.div, JSNum.gt, JSNum.mul, JSNum.add]
  · norm_num [calculateEaseIn, JSNum.div, JSNum.gt, JSNum.mul, JSNum.add]

/-- Claim C6 witness: instance of the amended claim at `t = 1`,
`distance = 5`, `start = 2`, negative duration `-1`. -/
theorem zero_duration_instant_completion_witness :
    (0:ℚ) < 1
    ∧ (-1:ℚ) < 0
    ∧ ((calculateEaseOut (num 1) (num 0) (num 5) (num 2) = num (2 + 5)
        ∧ calculateEaseIn (num 1) (num 0) (num 5) (num 2) = num (2 + 5))
      ∧ (calculateEaseOut (num 0) (num 0) (num 5) (num 2) = nan
        ∧ calculateEaseIn (num 0) (num 0) (num 5) (num 2) = nan)
      ∧ (calculateEaseOut (num 1) (num (-1)) (num 5) (num 2)
          = num (2 + -1 * 5 * clamp1 (1 / (-1)) * (clamp1 (1 / (-1)) - 2))
        ∧ calculateEaseIn (num 1) (num (-1)) (num 5) (num 2)
          = num (2 + 5 * (clamp1 (1 / (-1)) * clamp1 (1 / (-1))))
        ∧ clamp1 ((1:ℚ) / (-1)) = 1 / (-1))) :=
  ⟨by norm_num, by norm_num,
    zero_duration_instant_completion 1 5 2 (-1) (by norm_num) (by norm_num)⟩

/-- Claim C7: for positive durations both easing functions start exactly at
`start` at time `0` and reach exactly `start + distance` at time `d`. -/
theorem easing_boundary_values (start dist d : ℚ) (hd : 0 < d) :
    calculateEaseOut (num 0) (num d) (num dist) (num start) = num start
    ∧ calculateEaseOut (num d) (num d) (num dist) (num start) = num (start + dist)
    ∧ calculateEaseIn (num 0) (num d) (num dist) (num start) = num start
    ∧ calculateEaseIn (num d) (num d) (num dist) (num start) = num (start + dist) := by
  have hne : d ≠ 0 := hd.ne.symm
  have h0 : clamp1 (0 / d) = 0 := by
    unfold clamp1
    rw [zero_div, if_neg (by norm_num)]
  have h1 : clamp1 (d / d) = 1 := by
    unfold clamp1
    rw [div_self hne, if_neg (by norm_num)]
  refine ⟨?_, ?_, ?_, ?_⟩
  · rw [calculateEaseOut_num 0 d dist start hne, h0, JSNum.num.injEq]; ring
  · rw [calculateEaseOut_num d d dist start hne, h1, JSNum.num.injEq]; ring
  · rw [calculateEaseIn_num 0 d dist start hne, h0, JSNum.num.injEq]; ring
  · rw [calculateEaseIn_num d d dist start hne, h1, JSNum.num.injEq]; ring

/-- Claim C7 witness: the boundary identities at `start = 2`, `dist = 3`,
`d = 1`. -/
theorem easing_boundary_values_witness :
    (0:ℚ) < 1
    ∧ (calculateEaseOut (num 0) (num 1) (num 3) (num 2) = num 2
      ∧ calculateEaseOut (num 1) (num 1) (num 3) (num 2) = num (2 + 3)
      ∧ calculateEaseIn (num 0) (num 1) (num 3) (num 2) = num 2
      ∧ calculateEaseIn (num 1) (num 1) (num 3) (num 2) = num (2 + 3)) :=
  ⟨by norm_num, easing_boundary_values 2 3 1 (by norm_num)⟩

/-- Claim C8: at complementary completion fractions `p` and `1 - p`,
ease-out and ease-in values add to `2*start + distance`: the curves are
point-reflections of each other about the segment midpoint. -/
theorem easing_point_reflection (start dist d p : ℚ) (hd : 0 < d)
    (hp0 : 0 ≤ p) (hp1 : p ≤ 1) :
    add (calculateEaseOut (num (p * d)) (num d) (num dist) (num start))
        (calculateEaseIn (num ((1 - p) * d)) (num d) (num dist) (num start))
      = num (2 * start + dist) := by
  have hne : d ≠ 0 := hd.ne.symm
  have e1 : p * d / d = p := mul_div_cancel_right₀ p hne
  have e2 : (1 - p) * d / d = 1 - p := mul_div_cancel_right₀ _ hne
  have c1 : clamp1 p = p := by unfold clamp1; rw [if_neg (not_lt.mpr hp1)]
  have c2 : clamp1 (1 - p) = 1 - p := by
    unfold clamp1
    rw [if_neg (by linarith)]
  rw [calculateEaseOut_num _ _ _ _ hne, calculateEaseIn_num _ _ _ _ hne, e1, e2, c1, c2,
    add_num, JSNum.num.injEq]
  ring

/-- Claim C8 witness: the point-reflection identity at `start = 0`,
`dist = 1`, `d = 1`, `p = 1/2`. -/
theorem easing_point_reflection_witness :
    (0:ℚ) < 1
    ∧ (0:ℚ) ≤ 1/2
    ∧ (1:ℚ)/2 ≤ 1
    ∧ add (calculateEaseOut (num (1/2 * 1)) (num 1) (num 1) (num 0))
        (calculateEaseIn (num ((1 - 1/2) * 1)) (num 1) (num 1) (num 0))
      = num (2 * 0 + 1) :=
  ⟨by norm_num, by norm_num, by norm_num,
    easing_point_reflection 0 1 1 (1/2) (by norm_num) (by norm_num) (by norm_num)⟩

/-- Value of ease-out on `[0, d]`: the clamp is inactive there. -/
theorem calculateEaseOut_val (t d dist pos : ℚ) (hd : 0 < d) (h1 : t ≤ d) :
    val (calculateEaseOut (num t) (num d) (num dist) (num pos))
      = pos + -1 * dist * (t / d) * (t / d - 2) := by
  have hcl : clamp1 (t / d) = t / d := by
    unfold clamp1
    rw [if_neg (not_lt.mpr ((div_le_one hd).mpr h1))]
  rw [calculateEaseOut_num t d dist pos hd.ne.symm, hcl, val_num]

/-- Value of ease-in on `[0, d]`: the clamp is inactive there. -/
theorem calculateEaseIn_val (t d dist pos : ℚ) (hd : 0 < d) (h1 : t ≤ d) :
    val (calculateEaseIn (num t) (num d) (num dist) (num pos))
      = pos + dist * (t / d * (t / d)) := by
  have hcl : clamp1 (t / d) = t / d := by
    unfold clamp1
    rw [if_neg (not_lt.mpr ((div_le_one hd).mpr h1))]
  rw [calculateEaseIn_num t d dist pos hd.ne.symm, hcl, val_num]

/-- Claim C9: for a positive duration, both easings are monotone in elapsed
time on `[0, d]` when the distance has constant sign, and for a nonzero
distance their value at `t = d/2` lies strictly between `start` and
`start + distance`. -/
theorem easing_monotone_no_overshoot (d dist pos : ℚ) (hd : 0 < d) :
    (∀ t1 t2 : ℚ, 0 ≤ t1 → t1 ≤ t2 → t2 ≤ d →
      ((0 ≤ dist →
          val (calculateEaseOut (num t1) (num d) (num dist) (num pos))
            ≤ val (calculateEaseOut (num t2) (num d) (num dist) (num pos))
          ∧ val (calculateEaseIn (num t1) (num d) (num dist) (num pos))
            ≤ val (calculateEaseIn (num t2) (num d) (num dist) (num pos)))
        ∧ (dist ≤ 0 →
          val (calculateEaseOut (num t2) (num d) (num dist) (num pos))
            ≤ val (calculateEaseOut (num t1) (num d) (num dist) (num pos))
          ∧ val (calculateEaseIn (num t2) (num d) (num dist) (num pos))
            ≤ val (calculateEaseIn (num t1) (num d) (num dist) (num pos)))))
    ∧ (dist ≠ 0 →
        (min pos (pos + dist)
            < val (calculateEaseOut (num (d / 2)) (num d) (num dist) (num pos))
          ∧ val (calculateEaseOut (num (d / 2)) (num d) (num dist) (num pos))
            < max pos (pos + dist))
        ∧ (min pos (pos + dist)
            < val (calculateEaseIn (num (d / 2)) (num d) (num dist) (num pos))
          ∧ val (calculateEaseIn (num (d / 2)) (num d) (num dist) (num pos))
            < max pos (pos + dist))) := by
  constructor
  · intro t1 t2 h0 h12 h2d
    have h1d : t1 ≤ d := le_trans h12 h2d
    have hp1 : 0 ≤ t1 / d := div_nonneg h0 hd.le
    have hp12 : t1 / d ≤ t2 / d := (div_le_div_iff_of_pos_right hd).mpr h12
    have hp2 : t2 / d ≤ 1 := (div_le_one hd).mpr h2d
    rw [calculateEaseOut_val t1 d dist pos hd h1d, calculateEaseOut_val t2 d dist pos hd h2d,
      calculateEaseIn_val t1 d dist pos hd h1d, calculateEaseIn_val t2 d dist pos hd h2d]
    set p1 := t1 / d
    set p2 := t2 / d
    constructor
    · intro hdist
      constructor
      · nlinarith [mul_nonneg (mul_nonneg hdist (by linarith : (0:ℚ) ≤ p2 - p1))
          (by linarith : (0:ℚ) ≤ 2 - p1 - p2)]
      · nlinarith [mul_nonneg (mul_nonneg hdist (by linarith : (0:ℚ) ≤ p2 - p1))
          (by linarith : (0:ℚ) ≤ p1 + p2)]
    · intro hdist
      constructor
      · nlinarith [mul_nonneg (mul_nonneg (by linarith : (0:ℚ) ≤ -dist)
          (by linarith : (0:ℚ) ≤ p2 - p1)) (by linarith : (0:ℚ) ≤ 2 - p1 - p2)]
      · nlinarith [mul_nonneg (mul_nonneg (by linarith : (0:ℚ) ≤ -dist)
          (by linarith : (0:ℚ) ≤ p2 - p1)) (by linarith : (0:ℚ) ≤ p1 + p2)]
  · intro hdist
    have hhalf : d / 2 / d = 1 / 2 := by
      field_simp
      ring
    have hvo : val (calculateEaseOut (num (d / 2)) (num d) (num dist) (num pos))
        = pos + 3 / 4 * dist := by
      rw [calculateEaseOut_val (d / 2) d dist pos hd (by linarith), hhalf]
      ring
    have hvi : val (calculateEaseIn (num (d / 2)) (num d) (num dist) (num pos))
        = pos + 1 / 4 * dist := by
      rw [calculateEaseIn_val (d / 2) d dist pos hd (by linarith), hhalf]
      ring
    rw [hvo, hvi]
    rcases lt_or_gt_of_ne hdist with h | h
    · rw [min_eq_right (by linarith), max_eq_left (by linarith)]
      constructor <;> constructor <;> linarith
    · rw [min_eq_left (by linarith), max_eq_right (by linarith)]
      constructor <;> constructor <;> linarith

/-- Claim C9 witness: at `d = 1`, `dist = 1`, `pos = 0`, ease-out rises
from time `0` to time `1/2` and both easing values at `t = 1/2` lie
strictly between `0` and `1`. -/
theorem easing_monotone_no_overshoot_witness :
    (0:ℚ) < 1
    ∧ (val (calculateEaseOut (num 0) (num 1) (num 1) (num 0))
        ≤ val (calculateEaseOut (num (1/2)) (num 1) (num 1) (num 0)))
    ∧ (min (0:ℚ) (0 + 1) < val (calculateEaseOut (num (1/2)) (num 1) (num 1) (num 0))
      ∧ val (calculateEaseOut (num (1/2)) (num 1) (num 1) (num 0)) < max (0:ℚ) (0 + 1))
    ∧ (min (0:ℚ) (0 + 1) < val (calculateEaseIn (num (1/2)) (num 1) (num 1) (num 0))
      ∧ val (calculateEaseIn (num (1/2)) (num 1) (num 1) (num 0)) < max (0:ℚ) (0 + 1)) :=
  ⟨by norm_num,
    (((easing_monotone_no_overshoot 1 1 0 (by norm_num)).1 0 (1/2) (by norm_num)
      (by norm_num) (by norm_num)).1 (by norm_num)).1,
    ((easing_monotone_no_overshoot 1 1 0 (by norm_num)).2 (by norm_num)).1,
    ((easing_monotone_no_overshoot 1 1 0 (by norm_num)).2 (by norm_num)).2⟩
